import Mathlib

/-!
Verification of the synchronization-and-extrapolation engine of `app.py`
(live counter web application).

The development shallowly embeds the engine:
wall-clock times and rates are modelled as exact rationals (`ℚ`), counters
as integers (`ℤ`), Python `None` as `Option.none`.  Python float floor
division `x // y` (for `y > 0`) is `Int.floor (x / y)`, float modulo
`x % y` is `x - y * Int.floor (x / y)`, and `int(f)` on a float is
truncation toward zero.  Python `round(x, 2)` is modelled as exact
round-half-to-even at two decimal places (the binary-float representation
error of the decimal result is below this abstraction).  CSV rows (Python
dicts produced by `csv.DictReader`) are association lists whose later
entries shadow earlier ones, matching dict-comprehension overwrite order.
-/

/-! ## Python string primitives

Character-level models of the fragments of Python `str.strip`, `str.lower`,
`str.split`, `int(str)` and `float(str)` that the engine uses.  All
recursion is structural so every definition evaluates inside the kernel.
The numeric grammars model the decimal forms Python accepts; exotic inputs
(`inf`, `nan`, underscore separators, non-ASCII digits) are outside the
grammar and map to `none`, which composes to the same `safe_int` result the
interpreter produces on them. -/

/-- Whitespace recognised by Python `str.strip()` (ASCII fragment). -/
def py_space (c : Char) : Bool :=
  c = ' ' ∨ c = '\t' ∨ c = '\n' ∨ c = '\x0d' ∨ c = '\x0b' ∨ c = '\x0c'

/-- ASCII lower-casing of one character, as in Python `str.lower()`. -/
def lower_char (c : Char) : Char :=
  if 'A' ≤ c ∧ c ≤ 'Z' then Char.ofNat (c.toNat + 32) else c

/-- Python `s.lower()` on the character list of a string (ASCII fragment). -/
def lower_list (l : List Char) : List Char := l.map lower_char

/-- Python `s.strip()` on a character list. -/
def strip_list (l : List Char) : List Char :=
  ((l.dropWhile py_space).reverse.dropWhile py_space).reverse

/-- Python `s.split(sep)` for a one-character separator. -/
def split_char (sep : Char) : List Char → List (List Char)
  | [] => [[]]
  | c :: rest =>
    let r := split_char sep rest
    if c = sep then [] :: r
    else
      match r with
      | [] => [[c]]
      | g :: gs => (c :: g) :: gs

/-- Numeric value of a digit list (most significant first). -/
def digits_val (l : List Char) : ℕ :=
  l.foldl (fun a c => 10 * a + (c.toNat - '0'.toNat)) 0

/-- A nonempty all-digit list parsed to `ℕ`, otherwise `none`. -/
def parse_digits (l : List Char) : Option ℕ :=
  if l ≠ [] ∧ l.all Char.isDigit then some (digits_val l) else none

/-- Digits with an optional leading sign, parsed to `ℤ` (no whitespace). -/
def parse_signed (l : List Char) : Option ℤ :=
  match l with
  | [] => none
  | c :: rest =>
    if c = '-' then (parse_digits rest).map (fun n => -(n : ℤ))
    else if c = '+' then (parse_digits rest).map (fun n => (n : ℤ))
    else (parse_digits (c :: rest)).map (fun n => (n : ℤ))

/-- Python `int(s)` on a string: strip whitespace, optional sign, digits. -/
def py_int_of_string (s : String) : Option ℤ :=
  parse_signed (strip_list s.toList)

/-- Mantissa of a Python float literal: `digits`, `digits.digits`,
`digits.` or `.digits`. -/
def parse_mantissa (l : List Char) : Option ℚ :=
  match split_char '.' l with
  | [a] => (parse_digits a).map (fun n => (n : ℚ))
  | [a, b] =>
    if (a = [] ∧ b = []) then none
    else if a.all Char.isDigit ∧ b.all Char.isDigit then
      some ((digits_val a : ℚ) + (digits_val b : ℚ) / (10 : ℚ) ^ b.length)
    else none
  | _ => none

/-- Python `float(s)` on a string, restricted to finite decimal literals:
strip, optional sign, mantissa, optional `e`/`E` exponent. -/
def py_float_of_string (s : String) : Option ℚ :=
  let t := lower_list (strip_list s.toList)
  let signed : ℚ × List Char :=
    match t with
    | c :: rest =>
      if c = '-' then (-1, rest)
      else if c = '+' then (1, rest)
      else (1, t)
    | [] => (1, t)
  match split_char 'e' signed.2 with
  | [m] => (parse_mantissa m).map (fun q => signed.1 * q)
  | [m, ex] =>
    match parse_mantissa m, parse_signed ex with
    | some q, some k => some (signed.1 * q * (10 : ℚ) ^ k)
    | _, _ => none
  | _ => none

/-- Python `int(f)` on a finite float: truncation toward zero. -/
def ratTrunc (q : ℚ) : ℤ := if 0 ≤ q then ⌊q⌋ else ⌈q⌉

/-! ## Series Reducer (`app.py` lines 52–78) -/

/-- The lenient numeric coercion `safe_int` (app.py lines 52–57):
`None`/empty string map to absent; otherwise try `int(v)`; on failure try
`int(float(v))`; any remaining failure maps to absent. -/
def safe_int (v : Option String) : Option ℤ :=
  match v with
  | none => none
  | some s =>
    if s = "" then none
    else
      match py_int_of_string s with
      | some n => some n
      | none =>
        match py_float_of_string s with
        | some q => some (ratTrunc q)
        | none => none

/-- The rolling average `rolling_avg` (app.py lines 59–61): drop absent
values, keep the last `n` (Python slice `[-n:]` for the call-site value
`n = 14`), average them; empty tail averages to `0.0`. -/
def rolling_avg (vals : List (Option ℤ)) (n : ℕ) : ℚ :=
  let present := vals.filterMap id
  let tail := present.drop (present.length - n)
  if tail = [] then 0 else (tail.sum : ℚ) / (tail.length : ℚ)

/-- Python slice `[-28:-14]` of a list, as used for the preceding rate
window (app.py line 97): indices clamp at zero. -/
def prev_window (present : List ℤ) : List ℤ :=
  (present.drop (present.length - 28)).take
    ((present.length - 14) - (present.length - 28))

/-- The preceding-window average `R14_prev` (app.py line 98): mean of the
slice `[-28:-14]` of the non-absent daily values, `0.0` when the slice is
empty. -/
def r14_prev_avg (daily : List (Option ℤ)) : ℚ :=
  let prev := prev_window (daily.filterMap id)
  if prev = [] then 0 else (prev.sum : ℚ) / (prev.length : ℚ)

/-- The trend marker (app.py line 99). -/
def sync_trend (R14 R14_prev : ℚ) : String :=
  if R14_prev < R14 then "▲" else if R14 < R14_prev then "▼" else "•"

/-! ## Row parsing (`app.py` lines 63–78) -/

/-- One CSV row as produced by `csv.DictReader`: an association list of
column key to value, where later entries shadow earlier ones (dict
semantics).  A key is `none` for the DictReader restkey entry that a data
row longer than the header produces (its value, a Python list of the
overflow fields, is never consulted: the key normalization in `get`
raises on the `None` key first, so the value is modelled as the unused
`Option String`).  A `none` value is the restval filling of a short
row. -/
abbrev Row := List (Option String × Option String)

/-- Whether the dict comprehension `keys = ...` of app.py line 65 raises:
`k.strip()` fails with `AttributeError` exactly when the row carries the
DictReader restkey `None`, that is, when the data row was longer than the
header. -/
def row_raises (row : Row) : Bool :=
  row.any (fun p => p.1.isNone)

/-- The string-keyed pairs of a row.  For a row without the restkey this
is the whole dict; the restkey entry never takes part in a successful
lookup because its key `None` equals no string. -/
def string_pairs (row : Row) : List (String × Option String) :=
  row.filterMap (fun p => p.1.map (fun k => (k, p.2)))

/-- Python `row[k]` for a string key known to occur: the value of the last
pair with key `k` (dict semantics; later entries shadow earlier ones). -/
def dict_get (row : List (String × Option String)) (k : String) :
    Option String :=
  (row.foldl (fun acc p => if p.1 = k then some p.2 else acc) none).join

/-- The dict comprehension of app.py line 65 followed by
`keys.get(c.lower())`, over the string keys of a non-raising row: the last
original key whose stripped-lowered form equals `c.lower()`. -/
def norm_lookup (row : List (String × Option String)) (c : String) :
    Option String :=
  row.foldl
    (fun acc p =>
      if lower_list (strip_list p.1.toList) = lower_list c.toList
      then some p.1 else acc)
    none

/-- The alias lookup `get` inside `parse_rows` (app.py lines 64–69), over
the string keys of a non-raising row: try each candidate header name in
order; a hit whose original key is the empty string is falsy in Python
and is skipped. -/
def get_field (row : List (String × Option String)) (cands : List String) :
    Option String :=
  match cands with
  | [] => none
  | c :: rest =>
    match norm_lookup row c with
    | some k => if k = "" then get_field row rest else dict_get row k
    | none => get_field row rest

/-- Header aliases for the report date column (app.py line 72). -/
def date_aliases : List String := ["report_date", "date"]

/-- Header aliases for the daily killed column (app.py line 73). -/
def daily_aliases : List String := ["killed", "deaths", "killed_gaza"]

/-- Header aliases for the cumulative killed column (app.py line 74). -/
def cum_aliases : List String := ["killed_cum", "cumulative_deaths", "killed_cumulative"]

/-- `parse_rows` (app.py lines 63–78): per-row alias resolution and lenient
coercion into the three parallel sequences dates, daily, cumulative.
If any row carries the DictReader restkey, the first `get` call on that
row raises `AttributeError` (`None.strip()`), the whole `parse_rows` call
aborts and no sequences are produced: modelled as `none`. -/
def parse_rows (rows : List Row) :
    Option (List (Option String) × List (Option ℤ) × List (Option ℤ)) :=
  if rows.any (fun row => row_raises row) then none
  else
    some
      (rows.map (fun row => get_field (string_pairs row) date_aliases),
       rows.map (fun row => safe_int (get_field (string_pairs row) daily_aliases)),
       rows.map (fun row => safe_int (get_field (string_pairs row) cum_aliases)))

/-! ## Report-date to epoch (`app.py` lines 80–82) -/

/-- Gregorian leap-year test. -/
def is_leap_year (y : ℕ) : Bool := (y % 4 = 0 ∧ y % 100 ≠ 0) ∨ y % 400 = 0

/-- Days in a month of the proleptic Gregorian calendar. -/
def days_in_month (y m : ℕ) : ℕ :=
  if m = 2 then (if is_leap_year y then 29 else 28)
  else if m = 4 ∨ m = 6 ∨ m = 9 ∨ m = 11 then 30 else 31

/-- Days from 1970-01-01 to year `y`, month `m`, day `d` (civil-calendar
algorithm; valid for years `1 ≤ y ≤ 9999`). -/
def days_from_civil (y m d : ℕ) : ℤ :=
  let y2 := if m ≤ 2 then y - 1 else y
  let era := y2 / 400
  let yoe := y2 % 400
  let doy := (153 * (if 2 < m then m - 3 else m + 9) + 2) / 5 + d - 1
  let doe := yoe * 365 + yoe / 4 - yoe / 100 + doy
  (era : ℤ) * 146097 + (doe : ℤ) - 719468

/-- `parse_date_utc` (app.py lines 80–82): `strptime(date_str, "%Y-%m-%d")`
interpreted as UTC midnight, plus one day (the report-cutoff shift), as an
epoch timestamp.  `None` input or a malformed date raises inside the real
`run_sync_once` and is modelled as `none`.  Python strptime demands a
four-digit year and one-or-two-digit month and day, and the datetime
constructor validates ranges.  On the extremal date 9999-12-31 the
`+ timedelta(days=1)` exceeds `datetime.max` and raises `OverflowError`,
also modelled as `none`. -/
def parse_date_utc (v : Option String) : Option ℚ :=
  match v with
  | none => none
  | some s =>
    match split_char '-' s.toList with
    | [ys, ms, ds] =>
      if ys.length = 4 ∧ ys.all Char.isDigit ∧
          (ms.length = 1 ∨ ms.length = 2) ∧ ms.all Char.isDigit ∧
          (ds.length = 1 ∨ ds.length = 2) ∧ ds.all Char.isDigit then
        let y := digits_val ys
        let m := digits_val ms
        let d := digits_val ds
        if 1 ≤ y ∧ 1 ≤ m ∧ m ≤ 12 ∧ 1 ≤ d ∧ d ≤ days_in_month y m ∧
            ¬(y = 9999 ∧ m = 12 ∧ d = 31) then
          some (((days_from_civil y m d + 1) * 86400 : ℤ) : ℚ)
        else none
      else none
    | _ => none

/-! ## Shared state (`app.py` lines 31–40) -/

/-- The ceiling constant `P0` (app.py line 14). -/
def P0 : ℤ := 2000000

/-- The process-wide `state` dict (app.py lines 31–40).  `as_of_utc` is the
snapshot-creation wall-clock instant (the code stores it as an ISO string;
the epoch value carries the same information). -/
structure AppState where
  as_of_utc : Option ℚ
  cumulative_deaths : Option ℤ
  remaining_at_sync : Option ℤ
  r14_daily : Option ℚ
  r14_prev : Option ℚ
  trend : String
  last_sync_epoch : Option ℚ
  last_report_cutoff_epoch : Option ℚ
deriving DecidableEq

/-- The initial `state` literal (app.py lines 31–40). -/
def initial_state : AppState :=
  { as_of_utc := none
    cumulative_deaths := none
    remaining_at_sync := none
    r14_daily := none
    r14_prev := none
    trend := "•"
    last_sync_epoch := none
    last_report_cutoff_epoch := none }

/-! ## Python `round(x, 2)` -/

/-- Round-half-to-even to the nearest integer, as Python `round`. -/
def round_half_even (q : ℚ) : ℤ :=
  if q - (⌊q⌋ : ℚ) < 1 / 2 then ⌊q⌋
  else if 1 / 2 < q - (⌊q⌋ : ℚ) then ⌊q⌋ + 1
  else if ⌊q⌋ % 2 = 0 then ⌊q⌋ else ⌊q⌋ + 1

/-- Python `round(q, 2)` (app.py lines 117–118) as exact decimal rounding. -/
def round2 (q : ℚ) : ℚ := (round_half_even (q * 100) : ℚ) / 100

/-! ## Sync Engine (`app.py` lines 84–126) -/

/-- The arithmetic core of a successful sync (app.py lines 95–121), taking
the parsed daily series, the final cumulative count `D_cum`, the report
cutoff epoch and the wall-clock time of the sync.  When the 14-day average
is positive, `secs_per = 86400 / R14`,
`extra = int(max 0 (now - cutoff) // secs_per)`,
`residual = max 0 (now - cutoff) % secs_per`, the anchor is `now - residual`
and the baseline is `max 0 (P0 - (D_cum + extra))`; otherwise `extra = 0`
and the anchor is `now` itself.  The stored rates are rounded to two
decimals (`float(round(_, 2))`). -/
def run_sync_math (daily : List (Option ℤ)) (D_cum : ℤ)
    (cutoff_epoch now_epoch : ℚ) : AppState :=
  if 0 < rolling_avg daily 14 then
    { as_of_utc := some now_epoch
      cumulative_deaths := some D_cum
      remaining_at_sync := some (max 0 (P0 - (D_cum +
        ⌊max 0 (now_epoch - cutoff_epoch) / (86400 / rolling_avg daily 14)⌋)))
      r14_daily := some (round2 (rolling_avg daily 14))
      r14_prev := some (round2 (r14_prev_avg daily))
      trend := sync_trend (rolling_avg daily 14) (r14_prev_avg daily)
      last_sync_epoch := some (now_epoch - (max 0 (now_epoch - cutoff_epoch) -
        (86400 / rolling_avg daily 14) *
          ⌊max 0 (now_epoch - cutoff_epoch) / (86400 / rolling_avg daily 14)⌋))
      last_report_cutoff_epoch := some cutoff_epoch }
  else
    { as_of_utc := some now_epoch
      cumulative_deaths := some D_cum
      remaining_at_sync := some (max 0 (P0 - (D_cum + 0)))
      r14_daily := some (round2 (rolling_avg daily 14))
      r14_prev := some (round2 (r14_prev_avg daily))
      trend := sync_trend (rolling_avg daily 14) (r14_prev_avg daily)
      last_sync_epoch := some now_epoch
      last_report_cutoff_epoch := some cutoff_epoch }

/-- Outcome of `fetch_csv_rows` (app.py lines 46–50): either a transport
or decode failure (any exception) or the list of parsed CSV dict rows. -/
inductive FetchResult where
  | fail : FetchResult
  | ok : List Row → FetchResult

/-- `run_sync_once` (app.py lines 84–126).  Every exception raised on the
way — fetch failure, the `AttributeError` from the restkey of a too-long
row inside `parse_rows`, the explicit `ValueError` for an empty series or
an absent final cumulative value, or a `strptime`/`OverflowError` failure
on the last date — is caught by the surrounding `try`/`except`, which
logs and leaves the shared state untouched. -/
def run_sync_once (fetched : FetchResult) (now_epoch : ℚ) (st : AppState) :
    AppState :=
  match fetched with
  | .fail => st
  | .ok rows =>
    match parse_rows rows with
    | none => st
    | some parsed =>
      match (parsed.2.2).getLast? with
      | none => st
      | some none => st
      | some (some D_cum) =>
        match (parsed.1).getLast? with
        | none => st
        | some d =>
          match parse_date_utc d with
          | none => st
          | some cutoff_epoch =>
            run_sync_math parsed.2.1 D_cum cutoff_epoch now_epoch

/-- Decision of whether a sync attempt fails (is caught by the
`try`/`except` of app.py lines 85–126) rather than publishing a new state. -/
def sync_fails (fetched : FetchResult) : Bool :=
  match fetched with
  | .fail => true
  | .ok rows =>
    match parse_rows rows with
    | none => true
    | some parsed =>
      match (parsed.2.2).getLast? with
      | none => true
      | some none => true
      | some (some _) =>
        match (parsed.1).getLast? with
        | none => true
        | some d => (parse_date_utc d).isNone

/-- The reduce step (app.py lines 87–89): `parse_rows` followed by the
check `not cumulative or cumulative[-1] is None`.  It aborts the sync
either with the `AttributeError` raised inside `parse_rows` by the
restkey of a data row longer than the header, or with
`ValueError("Missing cumulative deaths")` when the parsed cumulative
sequence is empty or its final entry is absent. -/
def reduce_step_fails (rows : List Row) : Bool :=
  match parse_rows rows with
  | none => true
  | some parsed =>
    match parsed.2.2.getLast? with
    | none => true
    | some none => true
    | some (some _) => false

/-! ## Extrapolator and status projection (`app.py` lines 133–147, 173–190) -/

/-- `seconds_per_person` (app.py lines 133–135): `86400 / r14` when the
stored (rounded) rate is positive, else `None`; an unset rate reads as
`0.0` through Python `or`. -/
def seconds_per_person (st : AppState) : Option ℚ :=
  let r14 := st.r14_daily.getD 0
  if 0 < r14 then some (86400 / r14) else none

/-- `compute_remaining_now` (app.py lines 137–147): `None` before the first
successful sync; the frozen baseline when the decay interval is undefined
or nonpositive; otherwise `max 0 (baseline - drops)` with
`drops = int((now - last_sync_epoch) // s_per)`. -/
def compute_remaining_now (st : AppState) (now_epoch : ℚ) : Option ℤ :=
  match st.remaining_at_sync, st.last_sync_epoch with
  | some rem, some lastSync =>
    match seconds_per_person st with
    | none => some rem
    | some s_per =>
      if s_per ≤ 0 then some rem
      else some (max 0 (rem - ⌊(now_epoch - lastSync) / s_per⌋))
  | _, _ => none

/-- The state-derived fields of the `/api/status.json` response (app.py
lines 173–190).  The wall-clock display field `last_updated_utc` and the
constant `source_csv` are not part of the published state and are omitted. -/
structure StatusOut where
  as_of_utc : Option ℚ
  p0 : ℤ
  cumulative_deaths : Option ℤ
  rolling_14d_avg_daily : Option ℚ
  rolling_14d_prev_daily : Option ℚ
  trend : String
  remaining_at_sync : Option ℤ
  last_sync_epoch : Option ℚ
  seconds_per_person : Option ℤ
  last_report_cutoff_epoch : Option ℚ
deriving DecidableEq

/-- `api_status` (app.py lines 173–190): the read-only projection of the
current state; `seconds_per_person` is truncated to an integer with
`int(s_per)` and `None` when the decay interval is undefined (or `0.0`,
which is falsy in Python). -/
def api_status (st : AppState) : StatusOut :=
  { as_of_utc := st.as_of_utc
    p0 := P0
    cumulative_deaths := st.cumulative_deaths
    rolling_14d_avg_daily := st.r14_daily
    rolling_14d_prev_daily := st.r14_prev
    trend := st.trend
    remaining_at_sync := st.remaining_at_sync
    last_sync_epoch := st.last_sync_epoch
    seconds_per_person :=
      match seconds_per_person st with
      | some s => if s = 0 then none else some (ratTrunc s)
      | none => none
    last_report_cutoff_epoch := st.last_report_cutoff_epoch }

/-! ## Helper lemmas -/

/-- A defined decay interval is positive. -/
theorem seconds_per_person_pos (st : AppState) (s : ℚ)
    (h : seconds_per_person st = some s) : 0 < s := by
  unfold seconds_per_person at h
  by_cases h0 : 0 < st.r14_daily.getD 0
  · rw [if_pos h0] at h
    injection h with h
    subst h
    exact div_pos (by norm_num) h0
  · rw [if_neg h0] at h
    exact absurd h (by simp)

/-- Evaluation of the extrapolator on a published snapshot whose stored
rate is positive. -/
theorem compute_eq_of_pos_rate (st : AppState) (b : ℤ) (a t r : ℚ)
    (hb : st.remaining_at_sync = some b) (ha : st.last_sync_epoch = some a)
    (hr : st.r14_daily = some r) (hrpos : 0 < r) :
    compute_remaining_now st t = some (max 0 (b - ⌊(t - a) / (86400 / r)⌋)) := by
  have hs : seconds_per_person st = some (86400 / r) := by
    unfold seconds_per_person
    rw [hr]
    simp only [Option.getD_some]
    rw [if_pos hrpos]
  have hspos : (0 : ℚ) < 86400 / r := div_pos (by norm_num) hrpos
  simp [compute_remaining_now, hb, ha, hs, not_le.mpr hspos]

/-- Evaluation of the extrapolator on a published snapshot whose stored
rate is absent or nonpositive: the baseline is served unchanged. -/
theorem compute_eq_of_nonpos_rate (st : AppState) (b : ℤ) (a t : ℚ)
    (hb : st.remaining_at_sync = some b) (ha : st.last_sync_epoch = some a)
    (h0 : st.r14_daily.getD 0 ≤ 0) :
    compute_remaining_now st t = some b := by
  have hs : seconds_per_person st = none := by
    unfold seconds_per_person
    rw [if_neg (not_lt.mpr h0)]
  simp [compute_remaining_now, hb, ha, hs]

/-- Concrete published state used to probe the extrapolator in the past. -/
def past_probe_state : AppState :=
  { as_of_utc := none
    cumulative_deaths := none
    remaining_at_sync := some 10
    r14_daily := some 86400
    r14_prev := none
    trend := "•"
    last_sync_epoch := some 1000
    last_report_cutoff_epoch := none }

/-- C1: counterexample.  For a snapshot with baseline 10, rate 86400/day
(one decrement per second) and anchor 1000, the extrapolated value one
second before the anchor is 11, which exceeds the baseline: the code does
not clamp negative drops, so the claimed bound `value ≤ baseline_value`
for `t` earlier than `anchor_epoch` is false. -/
theorem compute_remaining_past_exceeds_baseline :
    compute_remaining_now past_probe_state 999 = some 11 ∧
      past_probe_state.remaining_at_sync = some 10 ∧ (10 : ℤ) < 11 := by
  refine ⟨?_, rfl, by norm_num⟩
  norm_num [compute_remaining_now, past_probe_state, seconds_per_person]

/-- C1 (amended): Extrapolator contract.  For every published snapshot
(baseline `b` at anchor `a`) and every time `t`: if the stored rate is
undefined or `≤ 0` the value is the baseline regardless of `t`; otherwise
the value is `max 0 (b - ⌊(t - a) / (86400 / rate)⌋)`; and for `t` earlier
than the anchor the drops are `≤ 0`, so the result is at least the
baseline (the code never clamps it from above). -/
theorem compute_remaining_now_contract (st : AppState) (b : ℤ) (a t : ℚ)
    (hb : st.remaining_at_sync = some b) (ha : st.last_sync_epoch = some a) :
    (st.r14_daily.getD 0 ≤ 0 → compute_remaining_now st t = some b) ∧
    (∀ r : ℚ, st.r14_daily = some r → 0 < r →
      compute_remaining_now st t = some (max 0 (b - ⌊(t - a) / (86400 / r)⌋)) ∧
      (t < a → b ≤ max 0 (b - ⌊(t - a) / (86400 / r)⌋))) := by
  constructor
  · intro h0
    exact compute_eq_of_nonpos_rate st b a t hb ha h0
  · intro r hr hrpos
    have hspos : (0 : ℚ) < 86400 / r := div_pos (by norm_num) hrpos
    constructor
    · exact compute_eq_of_pos_rate st b a t r hb ha hr hrpos
    · intro hta
      have hdiv : (t - a) / (86400 / r) ≤ 0 / (86400 / r) :=
        (div_le_div_iff_of_pos_right hspos).mpr (by linarith)
      rw [zero_div] at hdiv
      have hfl : ⌊(t - a) / (86400 / r)⌋ ≤ 0 := by
        have := Int.floor_mono hdiv
        simpa using this
      have hbb : b ≤ b - ⌊(t - a) / (86400 / r)⌋ := by omega
      exact le_trans hbb (le_max_right _ _)

/-- C1 witness: the amended contract applied to the concrete probe state
at time 1500 (rate 86400/day, anchor 1000, baseline 10). -/
theorem compute_remaining_now_contract_witness :
    compute_remaining_now past_probe_state 1500 =
      some (max 0 (10 - ⌊((1500 : ℚ) - 1000) / (86400 / 86400)⌋)) :=
  ((compute_remaining_now_contract past_probe_state 10 1000 1500 rfl rfl).2
    86400 rfl (by norm_num)).1

/-- C5: Monotonicity of the extrapolated value.  For a fixed published
snapshot with positive stored rate the value is non-increasing in `t`,
and when the stored rate is zero or undefined it is constant in `t`. -/
theorem value_at_monotone (st : AppState) (b : ℤ) (a : ℚ)
    (hb : st.remaining_at_sync = some b) (ha : st.last_sync_epoch = some a) :
    (∀ r : ℚ, st.r14_daily = some r → 0 < r →
      ∀ t1 t2 : ℚ, t1 ≤ t2 → ∀ v1 v2 : ℤ,
        compute_remaining_now st t1 = some v1 →
        compute_remaining_now st t2 = some v2 → v2 ≤ v1) ∧
    (st.r14_daily.getD 0 ≤ 0 → ∀ t1 t2 : ℚ,
      compute_remaining_now st t1 = compute_remaining_now st t2) := by
  constructor
  · intro r hr hrpos t1 t2 ht v1 v2 h1 h2
    have hspos : (0 : ℚ) < 86400 / r := div_pos (by norm_num) hrpos
    rw [compute_eq_of_pos_rate st b a t1 r hb ha hr hrpos] at h1
    rw [compute_eq_of_pos_rate st b a t2 r hb ha hr hrpos] at h2
    injection h1 with h1
    injection h2 with h2
    subst h1
    subst h2
    have hmono : ⌊(t1 - a) / (86400 / r)⌋ ≤ ⌊(t2 - a) / (86400 / r)⌋ :=
      Int.floor_mono ((div_le_div_iff_of_pos_right hspos).mpr (by linarith))
    exact max_le_max le_rfl (by omega)
  · intro h0 t1 t2
    rw [compute_eq_of_nonpos_rate st b a t1 hb ha h0,
        compute_eq_of_nonpos_rate st b a t2 hb ha h0]

/-- C5 witness: monotonicity applied to the probe snapshot between times
1000 and 2000, where the value drops from 10 to 0. -/
theorem value_at_monotone_witness :
    compute_remaining_now past_probe_state 2000 = some 0 ∧ (0 : ℤ) ≤ 10 := by
  have h1 : compute_remaining_now past_probe_state 1000 = some 10 := by
    norm_num [compute_remaining_now, past_probe_state, seconds_per_person]
  have h2 : compute_remaining_now past_probe_state 2000 = some 0 := by
    norm_num [compute_remaining_now, past_probe_state, seconds_per_person]
  exact ⟨h2, (value_at_monotone past_probe_state 10 1000 rfl rfl).1 86400 rfl
    (by norm_num) 1000 2000 (by norm_num) 10 0 h1 h2⟩

/-- C8: counterexample.  Before the first successful sync the published
state is the initial literal, and `compute_remaining_now` returns `None`,
not an integer. -/
theorem current_value_none_before_sync :
    compute_remaining_now initial_state 0 = none ∧
      ¬ ∃ n : ℤ, compute_remaining_now initial_state 0 = some n := by
  refine ⟨rfl, ?_⟩
  rintro ⟨n, h⟩
  rw [show compute_remaining_now initial_state 0 = none from rfl] at h
  exact absurd h (by simp)

/-- C8 (amended): once a snapshot has been published (baseline and anchor
present), every call to the read interface returns an integer; before the
first successful sync it returns `None`. -/
theorem current_value_integer_after_sync (st : AppState) (b : ℤ) (a t : ℚ)
    (hb : st.remaining_at_sync = some b) (ha : st.last_sync_epoch = some a) :
    ∃ n : ℤ, compute_remaining_now st t = some n := by
  rcases h : seconds_per_person st with _ | s
  · exact ⟨b, by simp [compute_remaining_now, hb, ha, h]⟩
  · by_cases hle : s ≤ 0
    · exact ⟨b, by simp [compute_remaining_now, hb, ha, h, hle]⟩
    · exact ⟨max 0 (b - ⌊(t - a) / s⌋),
        by simp [compute_remaining_now, hb, ha, h, hle]⟩

/-- C8 witness: the amended totality applied to the probe snapshot. -/
theorem current_value_integer_after_sync_witness :
    ∃ n : ℤ, compute_remaining_now past_probe_state 0 = some n :=
  current_value_integer_after_sync past_probe_state 10 1000 0 rfl rfl

/-- Concrete state with rate 70/day used to probe the status projection. -/
def status_probe_state : AppState :=
  { as_of_utc := none
    cumulative_deaths := none
    remaining_at_sync := none
    r14_daily := some 70
    r14_prev := none
    trend := "•"
    last_sync_epoch := none
    last_report_cutoff_epoch := none }

/-- C6: counterexample.  With rate 70/day the status endpoint reports
`seconds_per_person = 1234` (`int(86400 / 70)`), which is not equal to
`86400 / 70 = 1234.2857…`: the projection truncates the decay interval. -/
theorem status_seconds_truncation_cex :
    (api_status status_probe_state).seconds_per_person = some 1234 ∧
      (1234 : ℚ) ≠ 86400 / 70 := by
  constructor
  · norm_num [api_status, seconds_per_person, status_probe_state, ratTrunc]
  · norm_num

/-- C6 (amended): the `seconds_per_person` field of the status projection
is the integer truncation `int(86400 / rate_current)` when the stored rate
is positive, and `None` when the stored rate is zero, negative or unset. -/
theorem status_seconds_spec (st : AppState) :
    (∀ r : ℚ, st.r14_daily = some r → 0 < r →
      (api_status st).seconds_per_person = some (ratTrunc (86400 / r))) ∧
    (st.r14_daily.getD 0 ≤ 0 → (api_status st).seconds_per_person = none) := by
  constructor
  · intro r hr hrpos
    have hs : seconds_per_person st = some (86400 / r) := by
      unfold seconds_per_person
      rw [hr]
      simp only [Option.getD_some]
      rw [if_pos hrpos]
    have hne : (86400 / r : ℚ) ≠ 0 := ne_of_gt (div_pos (by norm_num) hrpos)
    simp [api_status, hs, hne]
  · intro h0
    have hs : seconds_per_person st = none := by
      unfold seconds_per_person
      rw [if_neg (not_lt.mpr h0)]
    simp [api_status, hs]

/-- C6 witness: the amended projection applied to the rate-70 state. -/
theorem status_seconds_spec_witness :
    (api_status status_probe_state).seconds_per_person =
      some (ratTrunc (86400 / 70)) :=
  (status_seconds_spec status_probe_state).1 70 rfl (by norm_num)

/-- Clamping the elapsed time before flooring equals clamping the floored
quotient, for a positive interval. -/
theorem floor_div_max_zero (x s : ℚ) (hs : 0 < s) :
    ⌊max 0 x / s⌋ = max 0 ⌊x / s⌋ := by
  rcases le_or_lt 0 x with hx | hx
  · rw [max_eq_right hx, max_eq_right]
    exact Int.floor_nonneg.mpr (div_nonneg hx hs.le)
  · rw [max_eq_left hx.le, zero_div, Int.floor_zero, max_eq_left]
    have hdiv : x / s ≤ 0 / s := (div_le_div_iff_of_pos_right hs).mpr hx.le
    rw [zero_div] at hdiv
    exact Int.floor_nonpos hdiv

/-- Concrete evaluation of the rolling average on the one-entry series
used by the witnesses below. -/
theorem rolling_avg_single : rolling_avg [some 86400] 14 = 86400 := by
  simp [rolling_avg]

/-- C4: counterexample.  With no daily data (rate 0) and observed
cumulative 2000001 exceeding the ceiling constant, the published counter
is clamped to 0, not frozen at the claimed `ceiling - observed = -1`. -/
theorem frozen_counter_clamped_cex :
    (run_sync_math [] 2000001 0 0).remaining_at_sync = some 0 ∧
      P0 - 2000001 = (-1 : ℤ) := by
  constructor
  · rw [run_sync_math, if_neg (by norm_num [rolling_avg])]
    norm_num [P0]
  · norm_num [P0]

/-- C4 (amended): in every successful sync with positive 14-day average,
`extra = max 0 ⌊(now - cutoff) / (86400 / R14)⌋` (a future cutoff counts
as zero elapsed) and the baseline is `max 0 (P0 - (observed + extra))`;
with rate zero or undefined, `extra = 0`, the anchor is `now` and the
counter is frozen at `max 0 (P0 - observed)` (clamped at zero, not at
`P0 - observed` itself). -/
theorem sync_baseline_spec (daily : List (Option ℤ)) (D : ℤ) (C now : ℚ) :
    (0 < rolling_avg daily 14 →
      (run_sync_math daily D C now).remaining_at_sync =
        some (max 0 (P0 - (D +
          max 0 ⌊(now - C) / (86400 / rolling_avg daily 14)⌋)))) ∧
    (rolling_avg daily 14 ≤ 0 →
      (run_sync_math daily D C now).remaining_at_sync =
        some (max 0 (P0 - D)) ∧
      (run_sync_math daily D C now).last_sync_epoch = some now) := by
  constructor
  · intro hR
    have hs : (0 : ℚ) < 86400 / rolling_avg daily 14 :=
      div_pos (by norm_num) hR
    rw [run_sync_math, if_pos hR]
    show some (max 0 (P0 - (D + ⌊max 0 (now - C) /
      (86400 / rolling_avg daily 14)⌋))) = _
    rw [floor_div_max_zero _ _ hs]
  · intro hR
    rw [run_sync_math, if_neg (not_lt.mpr hR)]
    exact ⟨by norm_num, rfl⟩

/-- C4 witness: the amended baseline law applied to a one-entry series
(rate 86400/day) and to an empty series with observed cumulative 5. -/
theorem sync_baseline_spec_witness :
    (run_sync_math [some 86400] 0 100 200).remaining_at_sync =
      some (max 0 (P0 - (0 +
        max 0 ⌊((200 : ℚ) - 100) / (86400 / rolling_avg [some 86400] 14)⌋))) ∧
    (run_sync_math [] 5 0 0).remaining_at_sync = some (max 0 (P0 - 5)) ∧
    (run_sync_math [] 5 0 0).last_sync_epoch = some 0 := by
  refine ⟨?_, ?_, ?_⟩
  · exact (sync_baseline_spec [some 86400] 0 100 200).1
      (by rw [rolling_avg_single]; norm_num)
  · exact ((sync_baseline_spec [] 5 0 0).2 (by norm_num [rolling_avg])).1
  · exact ((sync_baseline_spec [] 5 0 0).2 (by norm_num [rolling_avg])).2

/-- C10: a daily series with at most 14 non-absent values has an empty
preceding window (Python slice `[-28:-14]`), so the published
`rate_previous` is `0.0` and the trend is reported as rising (▲) whenever
the current rate is positive, even with no genuine earlier window. -/
theorem short_series_trend_rising (daily : List (Option ℤ)) (D : ℤ)
    (C now : ℚ) (h : (daily.filterMap id).length ≤ 14) :
    prev_window (daily.filterMap id) = [] ∧
    (run_sync_math daily D C now).r14_prev = some 0 ∧
    (0 < rolling_avg daily 14 → (run_sync_math daily D C now).trend = "▲") := by
  have hpw : prev_window (daily.filterMap id) = [] := by
    unfold prev_window
    have h14 : (daily.filterMap id).length - 14 = 0 := Nat.sub_eq_zero_of_le h
    rw [h14]
    simp
  have hprev : r14_prev_avg daily = 0 := by
    unfold r14_prev_avg
    rw [hpw]
    simp
  refine ⟨hpw, ?_, ?_⟩
  · have hr2 : round2 (r14_prev_avg daily) = 0 := by
      rw [hprev]
      norm_num [round2, round_half_even]
    by_cases hc : 0 < rolling_avg daily 14
    · rw [run_sync_math, if_pos hc]
      show some (round2 (r14_prev_avg daily)) = some 0
      rw [hr2]
    · rw [run_sync_math, if_neg hc]
      show some (round2 (r14_prev_avg daily)) = some 0
      rw [hr2]
  · intro hR
    have htr : sync_trend (rolling_avg daily 14) (r14_prev_avg daily) = "▲" := by
      unfold sync_trend
      rw [hprev, if_pos hR]
    rw [run_sync_math, if_pos hR]
    exact htr

/-- C10 witness: the short-series behaviour on a one-entry series. -/
theorem short_series_trend_rising_witness :
    (run_sync_math [some 86400] 0 0 0).trend = "▲" ∧
    (run_sync_math [some 86400] 0 0 0).r14_prev = some 0 := by
  have h := short_series_trend_rising [some 86400] 0 0 0 (by decide)
  exact ⟨h.2.2 (by rw [rolling_avg_single]; norm_num), h.2.1⟩

/-- Evaluation of two-decimal rounding at the witness rate. -/
theorem round2_single : round2 86400 = 86400 := by
  rw [round2, round_half_even]
  norm_num

/-- C2: counterexample.  A sync whose wall clock (99) is one second behind
the report cutoff (C = 100) clamps the elapsed time to zero and anchors at
`now = 99`, so at `t = C` the published value is 1999999 while the claimed
formula `max 0 (P0 - D - ⌊(t - C) / (86400 / R)⌋)` gives 2000000: the
re-anchoring does shift a decrement boundary. -/
theorem alignment_skew_cex :
    compute_remaining_now (run_sync_math [some 86400] 0 100 99) 100 =
      some 1999999 ∧
    max 0 (P0 - 0 - ⌊((100 : ℚ) - 100) /
      (86400 / rolling_avg [some 86400] 14)⌋) = (2000000 : ℤ) := by
  constructor
  · have hstate : run_sync_math [some 86400] 0 100 99 =
        { as_of_utc := some 99
          cumulative_deaths := some 0
          remaining_at_sync := some 2000000
          r14_daily := some 86400
          r14_prev := some (round2 (r14_prev_avg [some 86400]))
          trend := sync_trend (rolling_avg [some 86400] 14)
            (r14_prev_avg [some 86400])
          last_sync_epoch := some 99
          last_report_cutoff_epoch := some 100 } := by
      rw [run_sync_math, if_pos (by rw [rolling_avg_single]; norm_num)]
      rw [rolling_avg_single, round2_single]
      simp only [AppState.mk.injEq]
      norm_num [P0, max_def]
    rw [hstate]
    rw [compute_eq_of_pos_rate _ 2000000 99 100 86400 rfl rfl rfl (by norm_num)]
    norm_num [max_def]
  · rw [rolling_avg_single]
    norm_num [P0, max_def]

/-- C2 (amended): alignment property.  For a snapshot produced by one sync
with cutoff `C`, observed cumulative `D` and 14-day average `R > 0`,
provided the sync wall clock is not behind the cutoff (`C ≤ now`), the
stored two-decimal rounding leaves the rate unchanged, and the baseline is
not clamped at zero, the extrapolated value at every `t ≥ C` equals
`max 0 (P0 - D - ⌊(t - C) / (86400 / R)⌋)`: re-anchoring shifts no
decrement boundary. -/
theorem alignment_property (daily : List (Option ℤ)) (D : ℤ) (C now t : ℚ)
    (hR : 0 < rolling_avg daily 14)
    (hround : round2 (rolling_avg daily 14) = rolling_avg daily 14)
    (hnow : C ≤ now)
    (hbase : 0 ≤ P0 - (D + ⌊(now - C) / (86400 / rolling_avg daily 14)⌋))
    (_ht : C ≤ t) :
    compute_remaining_now (run_sync_math daily D C now) t =
      some (max 0 (P0 - D - ⌊(t - C) / (86400 / rolling_avg daily 14)⌋)) := by
  have hs : (0 : ℚ) < 86400 / rolling_avg daily 14 := div_pos (by norm_num) hR
  have hmax : max 0 (now - C) = now - C := max_eq_right (by linarith)
  have hstR : (run_sync_math daily D C now).r14_daily =
      some (rolling_avg daily 14) := by
    rw [run_sync_math, if_pos hR]
    show some (round2 (rolling_avg daily 14)) = _
    rw [hround]
  have hrem : (run_sync_math daily D C now).remaining_at_sync =
      some (P0 - (D + ⌊(now - C) / (86400 / rolling_avg daily 14)⌋)) := by
    rw [run_sync_math, if_pos hR]
    show some (max 0 (P0 - (D +
      ⌊max 0 (now - C) / (86400 / rolling_avg daily 14)⌋))) = _
    rw [hmax, max_eq_right hbase]
  have hanchor : (run_sync_math daily D C now).last_sync_epoch =
      some (C + (86400 / rolling_avg daily 14) *
        ⌊(now - C) / (86400 / rolling_avg daily 14)⌋) := by
    rw [run_sync_math, if_pos hR]
    show some (now - (max 0 (now - C) - (86400 / rolling_avg daily 14) *
      ⌊max 0 (now - C) / (86400 / rolling_avg daily 14)⌋)) = _
    rw [hmax]
    congr 1
    ring
  rw [compute_eq_of_pos_rate (run_sync_math daily D C now)
    (P0 - (D + ⌊(now - C) / (86400 / rolling_avg daily 14)⌋))
    (C + (86400 / rolling_avg daily 14) *
      ⌊(now - C) / (86400 / rolling_avg daily 14)⌋)
    t (rolling_avg daily 14) hrem hanchor hstR hR]
  have hfloor : ⌊(t - (C + (86400 / rolling_avg daily 14) *
      ⌊(now - C) / (86400 / rolling_avg daily 14)⌋)) /
        (86400 / rolling_avg daily 14)⌋ =
      ⌊(t - C) / (86400 / rolling_avg daily 14)⌋ -
        ⌊(now - C) / (86400 / rolling_avg daily 14)⌋ := by
    have harg : (t - (C + (86400 / rolling_avg daily 14) *
        ⌊(now - C) / (86400 / rolling_avg daily 14)⌋)) /
          (86400 / rolling_avg daily 14) =
        (t - C) / (86400 / rolling_avg daily 14) -
          (⌊(now - C) / (86400 / rolling_avg daily 14)⌋ : ℚ) := by
      field_simp
      ring
    rw [harg, Int.floor_sub_int]
  rw [hfloor]
  congr 1
  have : P0 - (D + ⌊(now - C) / (86400 / rolling_avg daily 14)⌋) -
      (⌊(t - C) / (86400 / rolling_avg daily 14)⌋ -
        ⌊(now - C) / (86400 / rolling_avg daily 14)⌋) =
      P0 - D - ⌊(t - C) / (86400 / rolling_avg daily 14)⌋ := by ring
  rw [this]

/-- C2 witness: the amended alignment law at a sync exactly at the cutoff
(rate 86400/day), evaluated 50 seconds later. -/
theorem alignment_property_witness :
    compute_remaining_now (run_sync_math [some 86400] 0 100 100) 150 =
      some (max 0 (P0 - 0 - ⌊((150 : ℚ) - 100) /
        (86400 / rolling_avg [some 86400] 14)⌋)) :=
  alignment_property [some 86400] 0 100 100 150
    (by rw [rolling_avg_single]; norm_num)
    (by rw [rolling_avg_single]; exact round2_single)
    (by norm_num)
    (by rw [rolling_avg_single]; norm_num [P0])
    (by norm_num)

/-- C3: failed-sync atomicity.  Whenever a sync attempt fails at any point
(fetch failure, a too-long row raising inside `parse_rows`, empty series,
absent final cumulative, malformed or overflowing last date), the shared
state is left exactly as it was, and both read interfaces keep serving
the previous values unchanged. -/
theorem failed_sync_noop (fetched : FetchResult) (now : ℚ) (st : AppState)
    (h : sync_fails fetched = true) :
    run_sync_once fetched now st = st ∧
    api_status (run_sync_once fetched now st) = api_status st ∧
    (∀ t, compute_remaining_now (run_sync_once fetched now st) t =
      compute_remaining_now st t) := by
  have hst : run_sync_once fetched now st = st := by
    cases fetched with
    | fail => rfl
    | ok rows =>
      simp only [run_sync_once]
      simp only [sync_fails] at h
      rcases hpr : parse_rows rows with _ | parsed
      · simp [hpr]
      · simp only [hpr] at h
        rcases hc : parsed.2.2.getLast? with _ | oc
        · simp [hpr, hc]
        · rcases oc with _ | Dv
          · simp [hpr, hc]
          · simp only [hc] at h
            rcases hd : parsed.1.getLast? with _ | d
            · simp [hpr, hc, hd]
            · simp only [hd, Option.isNone_iff_eq_none] at h
              rcases hp : parse_date_utc d with _ | q
              · simp [hpr, hc, hd, hp]
              · rw [hp] at h
                exact absurd h (by simp)
  exact ⟨hst, by rw [hst], fun t => by rw [hst]⟩

/-- C3 witness: a sync attempt whose fetch fails, applied to the initial
state, leaves it untouched. -/
theorem failed_sync_noop_witness :
    run_sync_once FetchResult.fail 0 initial_state = initial_state :=
  (failed_sync_noop FetchResult.fail 0 initial_state rfl).1

/-- A concrete data row longer than the header: date and cumulative
fields present, and the overflow field under the DictReader restkey
`None`. -/
def long_row : Row :=
  [(some "date", some "2024-01-10"), (some "killed_cum", some "5"),
   (none, some "extra")]

/-- C7: counterexample.  On the one-row input `[long_row]` the reduce
step fails — the key normalization inside `parse_rows` raises
`AttributeError` on the restkey `None` — although the input is nonempty
and the final row's cumulative field coerces to the present value 5, so
the claimed iff ("fails only when empty or final cumulative absent") is
false. -/
theorem reduce_fails_on_long_row :
    reduce_step_fails [long_row] = true ∧
      ([long_row] : List Row) ≠ [] ∧
      safe_int (get_field (string_pairs long_row) cum_aliases) = some 5 := by
  refine ⟨by decide, by decide, by decide⟩

/-- C7 (amended): the reduce step fails iff the input is empty, or some
row is longer than the header (its DictReader restkey `None` makes the
key normalization raise `AttributeError`), or the final row's cumulative
field is absent after lenient coercion; absent values in any other field
or row never make it fail. -/
theorem reduce_failure_iff (rows : List Row) :
    reduce_step_fails rows = true ↔
      rows = [] ∨ (∃ row ∈ rows, row_raises row = true) ∨
        ∃ r, rows.getLast? = some r ∧
          safe_int (get_field (string_pairs r) cum_aliases) = none := by
  unfold reduce_step_fails parse_rows
  by_cases hraise : rows.any (fun row => row_raises row) = true
  · rw [if_pos hraise]
    constructor
    · intro _
      rcases List.any_eq_true.mp hraise with ⟨row, hmem, hrow⟩
      exact Or.inr (Or.inl ⟨row, hmem, hrow⟩)
    · intro _
      rfl
  · rw [if_neg hraise]
    have hnoraise : ∀ row ∈ rows, ¬ row_raises row = true := by
      intro row hmem hrow
      exact hraise (List.any_eq_true.mpr ⟨row, hmem, hrow⟩)
    rcases hr : rows.getLast? with _ | r
    · have hempty : rows = [] := List.getLast?_eq_none_iff.mp hr
      subst hempty
      simp
    · have hne : rows ≠ [] := by
        intro hcon
        rw [hcon] at hr
        exact absurd hr (by simp)
      have hmap : (rows.map (fun row =>
          safe_int (get_field (string_pairs row) cum_aliases))).getLast? =
          (rows.getLast?).map (fun row =>
            safe_int (get_field (string_pairs row) cum_aliases)) :=
        List.getLast?_map _ rows
      rw [hr] at hmap
      rcases hs : safe_int (get_field (string_pairs r) cum_aliases) with _ | n
      · rw [Option.map_some', hs] at hmap
        simp only [hmap]
        constructor
        · intro _
          exact Or.inr (Or.inr ⟨r, rfl, hs⟩)
        · intro _
          trivial
      · rw [Option.map_some', hs] at hmap
        simp only [hmap]
        constructor
        · intro hcon
          exact absurd hcon (by simp)
        · rintro (hcon | ⟨row, hmem, hrow⟩ | ⟨r0, hr0, hs0⟩)
          · exact absurd hcon hne
          · exact absurd hrow (hnoraise row hmem)
          · injection hr0 with hr0
            subst hr0
            rw [hs] at hs0
            exact absurd hs0 (by simp)

/-- C7 witness: the amended failure test applied to the empty input. -/
theorem reduce_failure_iff_witness : reduce_step_fails [] = true :=
  (reduce_failure_iff []).mpr (Or.inl rfl)

/-- C9: the lenient numeric coercion is total (a Lean function never
raises) and follows exactly the documented cases: missing or empty value
to absent, successful direct integer parse to that integer, otherwise a
successful float parse to its truncation, and absent in every other
case. -/
theorem safe_int_spec (v : Option String) :
    (v = none → safe_int v = none) ∧
    (v = some "" → safe_int v = none) ∧
    (∀ s n, v = some s → s ≠ "" → py_int_of_string s = some n →
      safe_int v = some n) ∧
    (∀ s q, v = some s → s ≠ "" → py_int_of_string s = none →
      py_float_of_string s = some q → safe_int v = some (ratTrunc q)) ∧
    (∀ s, v = some s → s ≠ "" → py_int_of_string s = none →
      py_float_of_string s = none → safe_int v = none) := by
  refine ⟨?_, ?_, ?_, ?_, ?_⟩
  · rintro rfl
    rfl
  · rintro rfl
    rfl
  · rintro s n rfl hne hint
    simp [safe_int, hne, hint]
  · rintro s q rfl hne hint hfl
    simp [safe_int, hne, hint, hfl]
  · rintro s rfl hne hint hfl
    simp [safe_int, hne, hint, hfl]

/-- C9 witness: the integer branch of the coercion on the string "42". -/
theorem safe_int_spec_witness : safe_int (some "42") = some 42 :=
  (safe_int_spec (some "42")).2.2.1 "42" 42 rfl (by decide) (by decide)
